import Mathlib

/-!
Verification of the BrowserUseDP agent control loop and its call-repetition
guard, shallowly embedded from `src/browser_automation.py` and
`src/browser_control_agent.py`.

Conventions of the embedding:
* Python parameter values (strings, ints, lists of strings) are the inductive
  `PValue`; a Python `dict` of parameters is an association list.
* `time.time()` float timestamps are modelled as integers (seconds) — the
  float-valued clock itself is outside the embedding; the guard's comparison
  `(cur - prev) * 1000 > threshold_ms` is kept verbatim.
* Raising an exception is modelled as an explicit outcome constructor.
-/

/-- A Python parameter value as it appears in a planned operation's params. -/
inductive PValue
  | str (s : String)
  | int (n : Int)
  | strList (l : List String)
deriving DecidableEq, Repr

/-- `FunctionCall` record from `browser_automation.py`: the guarded function's
name, its positional args, keyword args, and the `time.time()` timestamp in
seconds. -/
structure FunctionCall where
  func_name : String
  args : List PValue
  kwargs : List (String × PValue)
  timestamp : ℤ
deriving DecidableEq, Repr

/-- `FunctionCallTracker` state: the bounded look-back buffer (a deque with
`maxlen = max_history`, oldest first) plus the configuration. -/
structure FunctionCallTracker where
  call_history : List FunctionCall
  max_history : Nat
  threshold_ms : ℤ
  max_repeats : Nat
deriving DecidableEq, Repr

/-- Two calls match when function name, positional args and keyword args all
coincide (timestamps are not compared), as in `count_recent_duplicates`. -/
def matchesCall (prev cur : FunctionCall) : Bool :=
  decide (prev.func_name = cur.func_name) && decide (prev.args = cur.args)
    && decide (prev.kwargs = cur.kwargs)

/-- The backward scan of `count_recent_duplicates`: walk the (already
reversed) history; stop at the first call older than the time window or the
first non-matching call, counting matches. -/
def countDupGo (threshold_ms : ℤ) (cur : FunctionCall) : List FunctionCall → Nat
  | [] => 0
  | prev :: rest =>
    if (cur.timestamp - prev.timestamp) * 1000 > threshold_ms then 0
    else if matchesCall prev cur then countDupGo threshold_ms cur rest + 1
    else 0

/-- `FunctionCallTracker.count_recent_duplicates`: scan the history newest
first. -/
def count_recent_duplicates (t : FunctionCallTracker) (cur : FunctionCall) : Nat :=
  countDupGo t.threshold_ms cur t.call_history.reverse

/-- Append to a `deque(maxlen := maxlen)`: the oldest entries are evicted when
the capacity is exceeded. -/
def dequeAppend (maxlen : Nat) (l : List FunctionCall) (c : FunctionCall) : List FunctionCall :=
  let l' := l ++ [c]
  if maxlen < l'.length then l'.drop (l'.length - maxlen) else l'

/-- The guard's warning text (the source also interpolates the repr of the
args and kwargs; that rendering is elided here). -/
def warningMsg (threshold_ms : ℤ) (c : FunctionCall) (repeatCount : Nat) : String :=
  "检测到函数 " ++ c.func_name ++ " 在 " ++ toString threshold_ms
    ++ "ms 内被连续调用 " ++ toString repeatCount
    ++ " 次，你可能在进行无效的操作，请改变执行方法"

/-- Outcome of one guarded invocation: the wrapped function's real result, the
warning string returned in its place, or a raised `RepeatedCallError`. -/
inductive CallOutcome
  | ok (v : String)
  | warn (msg : String)
  | err (msg : String)
deriving DecidableEq, Repr

/-- Classification of a `CallOutcome`. -/
inductive OutcomeKind
  | normal
  | warned
  | raised
deriving DecidableEq, Repr

/-- The kind of an outcome. -/
def outcomeKind : CallOutcome → OutcomeKind
  | .ok _ => .normal
  | .warn _ => .warned
  | .err _ => .raised

/-- Whether the invocation raised `RepeatedCallError`. -/
def isRaised : CallOutcome → Bool
  | .err _ => true
  | _ => false

/-- `FunctionCallTracker.__call__`'s wrapper on one invocation of the wrapped
function `f`. Returns the outcome, the tracker after the invocation, and how
many times the underlying function was executed (0 or 1).

Branches exactly as the source: at `repeat_count >= max_repeats` the error is
raised without executing `f` and without recording the call; at
`repeat_count == max_repeats - 1` the call is recorded, `f` executes, but the
warning string is returned in place of `f`'s result; otherwise the call is
recorded and `f`'s result returned. -/
def trackerCall (t : FunctionCallTracker) (f : FunctionCall → String) (c : FunctionCall) :
    CallOutcome × FunctionCallTracker × Nat :=
  let repeat_count := count_recent_duplicates t c
  if t.max_repeats ≤ repeat_count then
    (.err (warningMsg t.threshold_ms c repeat_count), t, 0)
  else if repeat_count = t.max_repeats - 1 then
    (.warn (warningMsg t.threshold_ms c repeat_count),
      { t with call_history := dequeAppend t.max_history t.call_history c }, 1)
  else
    (.ok (f c),
      { t with call_history := dequeAppend t.max_history t.call_history c }, 1)

/-- Run a sequence of guarded invocations through one tracker, collecting each
outcome together with how many times the underlying function executed. A
raised `RepeatedCallError` aborts only the offending call (the caller may
invoke again), so the run continues with the unchanged tracker. -/
def runTracker (f : FunctionCall → String) :
    FunctionCallTracker → List FunctionCall → List (CallOutcome × Nat) × FunctionCallTracker
  | t, [] => ([], t)
  | t, c :: cs =>
    let r := trackerCall t f c
    let rest := runTracker f r.2.1 cs
    ((r.1, r.2.2) :: rest.1, rest.2)

/-- An identical test call at timestamp `i` seconds, as in the guard's own
`__main__` test. -/
def testCall (i : Nat) : FunctionCall :=
  ⟨"test_function", [], [], (i : ℤ)⟩

/-- The tracker with the source's default configuration:
`max_history = 15`, `threshold_ms = 30000`, `max_repeats = 3`. -/
def defaultTracker : FunctionCallTracker :=
  ⟨[], 15, 30000, 3⟩

/-- C2: guard with `max_repeats = 3`, four identical calls inside the 30000ms
window: calls 1 and 2 execute the function and return its real result, call 3
executes the function but returns the warning string, call 4 raises
`RepeatedCallError` without executing the function. -/
theorem C2_guard_four_identical_calls :
    runTracker (fun _ => "real_result") defaultTracker
        [testCall 0, testCall 1, testCall 2, testCall 3] =
      ([(CallOutcome.ok "real_result", 1), (CallOutcome.ok "real_result", 1),
        (CallOutcome.warn (warningMsg 30000 (testCall 2) 2), 1),
        (CallOutcome.err (warningMsg 30000 (testCall 3) 3), 0)],
       ⟨[testCall 0, testCall 1, testCall 2], 15, 30000, 3⟩) := by
  decide

/-! ## Executor (`AsyncExecuteOperation` in `browser_control_agent.py`) -/

/-- The `params` field of a planned operation: normally a dict, but the
planner's raw output may put a bare string there. -/
inductive ParamsRepr
  | dict (d : List (String × PValue))
  | str (s : String)
deriving DecidableEq, Repr

/-- A planned operation `{action, params}` as produced by `AsyncPlanOperation`. -/
structure PlannedOp where
  action : String
  params : ParamsRepr
deriving DecidableEq, Repr

/-- `params.get(key)`: first binding of `key` in the dict, if any. -/
def lookupParam (d : List (String × PValue)) (k : String) : Option PValue :=
  (d.find? (fun p => p.1 == k)).map (fun p => p.2)

/-- One entry of `AsyncExecuteOperation._operation_map`: target method name,
required and optional parameter names, and the argument-extraction rule
(`args_map`); a `none` argument is Python's `None`. -/
structure OpConfig where
  method : String
  required_params : List String
  optional_params : List String
  args_map : List (String × PValue) → List (Option PValue)

def clickElementConfig : OpConfig :=
  ⟨"click_element", ["xpath"], [], fun p => [lookupParam p "xpath"]⟩

def clickToUploadConfig : OpConfig :=
  ⟨"click_to_upload", ["xpath", "file_paths"], [],
    fun p => [lookupParam p "xpath", lookupParam p "file_paths"]⟩

def inputTextConfig : OpConfig :=
  ⟨"input_text", ["xpath", "text"], [], fun p => [lookupParam p "xpath", lookupParam p "text"]⟩

def sendKeysConfig : OpConfig :=
  ⟨"send_keys", ["xpath", "keys"], [], fun p => [lookupParam p "xpath", lookupParam p "keys"]⟩

def scrollDownConfig : OpConfig :=
  ⟨"scroll_down", [], ["pixel"], fun p => [some ((lookupParam p "pixel").getD (PValue.int 300))]⟩

def scrollUpConfig : OpConfig :=
  ⟨"scroll_up", [], ["pixel"], fun p => [some ((lookupParam p "pixel").getD (PValue.int 300))]⟩

def goToUrlConfig : OpConfig :=
  ⟨"go_to_url", ["url"], [], fun p => [lookupParam p "url"]⟩

def goBackConfig : OpConfig :=
  ⟨"go_back", [], [], fun _ => []⟩

def openTabConfig : OpConfig :=
  ⟨"open_tab", ["url"], [], fun p => [lookupParam p "url"]⟩

def closeTabConfig : OpConfig :=
  ⟨"close_tab", [], [], fun _ => []⟩

def switchTabConfig : OpConfig :=
  ⟨"switch_tab", [], ["title", "url"], fun p => [lookupParam p "title", lookupParam p "url"]⟩

/-- The closed dispatch table `_operation_map`. -/
def operationMap : String → Option OpConfig
  | "click_element" => some clickElementConfig
  | "click_to_upload" => some clickToUploadConfig
  | "input_text" => some inputTextConfig
  | "send_keys" => some sendKeysConfig
  | "scroll_down" => some scrollDownConfig
  | "scroll_up" => some scrollUpConfig
  | "go_to_url" => some goToUrlConfig
  | "go_back" => some goBackConfig
  | "open_tab" => some openTabConfig
  | "close_tab" => some closeTabConfig
  | "switch_tab" => some switchTabConfig
  | _ => none

/-- Behaviour of one environment-driver method call: either a returned value
(`none` models a Python method returning `None`) or a raised exception with
its class name and message. -/
inductive DriverBehavior
  | ok (v : Option String)
  | raises (excName : String) (msg : String)

/-- `OperationResult`: either the dispatched method's return value, or the
structured failure dict `{error: true, error_type, message, ...}` built by
the executor (the `action`/`params` echo fields are elided). -/
inductive OperationResult
  | success (v : Option String)
  | failure (error_type : String) (message : String)
deriving DecidableEq, Repr

/-- Whether a result is a structured error, as tested by
`isinstance(exec_res, dict) and exec_res.get("error") is True`. -/
def resIsError : OperationResult → Bool
  | .failure _ _ => true
  | .success _ => false

/-- `AsyncExecuteOperation.exec_async`: normalize string params, look the
action up in the dispatch table, validate required parameters
(`_validate_params_by_config`), then dispatch to the environment driver,
normalizing a raised exception into a structured failure. Besides the result
it returns the list of driver invocations made (method name and args), so
that "the environment was not touched" is expressible. -/
def execOperation (driver : String → List (Option PValue) → DriverBehavior)
    (op : PlannedOp) : OperationResult × List (String × List (Option PValue)) :=
  let params :=
    match op.params with
    | .dict d => d
    | .str s =>
      if op.action = "click_element" ∨ op.action = "click_to_upload"
          ∨ op.action = "input_text" ∨ op.action = "send_keys"
      then [("xpath", PValue.str s)] else []
  match operationMap op.action with
  | none => (.failure "unknown_action" ("未知的操作类型: " ++ op.action), [])
  | some cfg =>
    match cfg.required_params.find? (fun p => (lookupParam params p).isNone) with
    | some missing =>
      (.failure "parameter_validation"
        ("参数验证失败: " ++ op.action ++ "操作必须提供" ++ missing ++ "参数"), [])
    | none =>
      let args := cfg.args_map params
      match driver cfg.method args with
      | .ok v => (.success v, [(cfg.method, args)])
      | .raises n m =>
        (.failure n ("执行操作" ++ op.action ++ "失败: " ++ m), [(cfg.method, args)])

/-! ## Shared run state and `AsyncExecuteOperation.post_async` -/

/-- A `HistoryRecord {operation, result}` of `operation_history`. -/
structure HistoryRecord where
  operation : PlannedOp
  result : OperationResult
deriving DecidableEq, Repr

/-- The `shared` dict of the flow: the fields the control loop reads and
writes (the browser-environment snapshot itself is external). -/
structure SharedState where
  planned_operation : Option PlannedOp
  operation_result : Option OperationResult
  retry_count : Nat
  last_failed_operation : Option PlannedOp
  operation_history : List HistoryRecord
  iteration : Nat
  final_message : Option String
deriving DecidableEq, Repr

/-- The history-append normalization in `post_async`: a string `params` is
converted to an xpath dict for the three xpath actions before recording. -/
def normalizeRecordedOp (op : PlannedOp) : PlannedOp :=
  match op.params with
  | .str p =>
    if op.action = "click_element" ∨ op.action = "input_text" ∨ op.action = "send_keys"
    then ⟨op.action, .dict [("xpath", PValue.str p)]⟩ else op
  | _ => op

/-- The action string `post_async` returns, steering the flow. -/
inductive ExecRoute
  | success
  | error
  | retry
deriving DecidableEq, Repr

/-- `AsyncExecuteOperation.post_async`: store the result; on a structured
error record the failed operation and bump `retry_count`, then route to
"retry" for a transient `error_type` with `retry_count <= 3` and to "error"
otherwise; on success reset the retry state, append the history record and
route to "success". -/
def executePost (s : SharedState) (prep : PlannedOp) (res : OperationResult) :
    ExecRoute × SharedState :=
  let s₀ := { s with operation_result := some res }
  match res with
  | .failure error_type _ =>
    let s₁ := { s₀ with
      last_failed_operation := some prep,
      retry_count := s₀.retry_count + 1 }
    if (error_type = "ConnectionError" ∨ error_type = "TimeoutError"
        ∨ error_type = "NetworkError") ∧ s₁.retry_count ≤ 3
    then (.retry, s₁)
    else (.error, s₁)
  | .success _ =>
    let s₁ := { s₀ with retry_count := 0, last_failed_operation := none }
    (.success,
      { s₁ with operation_history :=
          s₁.operation_history ++ [⟨normalizeRecordedOp prep, res⟩] })

/-- Iterate `executePost` over a list of (planned op, execute result) steps. -/
def execPostRun (s : SharedState) (steps : List (PlannedOp × OperationResult)) : SharedState :=
  steps.foldl (fun st pr => (executePost st pr.1 pr.2).2) s

/-- The nodes of the flow graph built at the bottom of
`browser_control_agent.py`. -/
inductive FlowNode
  | getEnv
  | planNode
  | executeNode
  | observeNode
  | finishNode
deriving DecidableEq, Repr

/-- The wiring `get_env >> plan >> execute`, `execute - success/error/retry`,
`observe - continue/finish`. -/
def routeTarget : FlowNode → String → Option FlowNode
  | .getEnv, "default" => some .planNode
  | .planNode, "default" => some .executeNode
  | .executeNode, "success" => some .observeNode
  | .executeNode, "error" => some .planNode
  | .executeNode, "retry" => some .executeNode
  | .observeNode, "continue" => some .getEnv
  | .observeNode, "finish" => some .finishNode
  | _, _ => none

/-! ## History serialization (`safe_data`, `AsyncObserveResult.exec_async`) -/

/-- A serialized history record as put into a prompt: the operation dict and
`str(result)` (with `None` rendered as `"None"`). -/
structure SafeRecord where
  operation : PlannedOp
  result : String
deriving DecidableEq, Repr

/-- `str(record["result"])` with `None → "None"`; Python's dict rendering of a
structured failure is simplified to its two informative fields. -/
def renderResult : OperationResult → String
  | .success none => "None"
  | .success (some v) => v
  | .failure et m => "error: " ++ et ++ ", " ++ m

/-- One history record made safe for serialization. -/
def toSafeRecord (r : HistoryRecord) : SafeRecord :=
  ⟨r.operation, renderResult r.result⟩

/-- The `operation_history` part of `safe_data`, serialized into the
Planner's prompt: the mapped history, truncated to `safe_history[-5:]` when
longer than 5. -/
def safeHistoryPlanner (h : List HistoryRecord) : List SafeRecord :=
  let sh := h.map toSafeRecord
  if 5 < sh.length then sh.drop (sh.length - 5) else sh

/-- The `safe_history` built by `AsyncObserveResult.exec_async` for the
completion-judgement prompt: the whole history is mapped, with no cap. -/
def safeHistoryObserver (h : List HistoryRecord) : List SafeRecord :=
  h.map toSafeRecord

/-! ## Completion observer (`AsyncObserveResult`) -/

/-- ASCII-wise `str.lower()` (codepoints outside A–Z, in particular all the
Chinese text involved here, are untouched). -/
def pyLower (s : String) : String :=
  ⟨s.data.map Char.toLower⟩

/-- Does `needle` occur as a prefix of `hay`? -/
def isPrefixCh : List Char → List Char → Bool
  | [], _ => true
  | _ :: _, [] => false
  | a :: as, b :: bs => a == b && isPrefixCh as bs

/-- Does `needle` occur as a contiguous substring of `hay`? -/
def containsCh (needle : List Char) : List Char → Bool
  | [] => needle.isEmpty
  | c :: rest => isPrefixCh needle (c :: rest) || containsCh needle rest

/-- Python's `needle in hay` on strings. -/
def strContainsSub (hay needle : String) : Bool :=
  containsCh needle.data hay.data

/-- The affirmation test of `AsyncObserveResult.post_async`:
`"是" in completion_result.lower() or "完成" in completion_result.lower()`. -/
def affirmative (s : String) : Bool :=
  strContainsSub (pyLower s) "是" || strContainsSub (pyLower s) "完成"

/-- The action string `AsyncObserveResult.post_async` returns, with the
`final_message` it stores when finishing. -/
inductive ObserveRoute
  | finish (final_message : String)
  | cont
deriving DecidableEq, Repr

/-- The message stored when the iteration cap ends the run. -/
def maxIterMessage : String := "达到最大迭代次数，任务结束"

/-- `AsyncObserveResult.post_async` on the completion result (`none` models a
falsy `completion_result`, returned when the history was empty) and the
already-incremented iteration counter: finish when the oracle's answer is
truthy and affirmative, else finish with the cap message when
`iteration >= 30`, else continue. -/
def observeRoute (completion_result : Option String) (iteration : Nat) : ObserveRoute :=
  match completion_result with
  | some s =>
    if s ≠ "" ∧ affirmative s = true then .finish ("任务已完成：" ++ s)
    else if 30 ≤ iteration then .finish maxIterMessage
    else .cont
  | none =>
    if 30 ≤ iteration then .finish maxIterMessage
    else .cont

/-! ## Planner retry/fallback (`AsyncPlanOperation.exec_async`) -/

/-- The safe default plan the planner falls back to after its three oracle
attempts all fail to parse. -/
def defaultPlan : PlannedOp :=
  ⟨"scroll_down", .dict [("pixel", PValue.int 300)]⟩

/-- The planner's bounded retry against the oracle: `attempts i` is the parse
of the oracle's `i`-th response (`none` = unparsable or no `action` field);
up to `max_retries = 3` attempts are made, after which the default plan is
returned. The xpath post-validation step applies only to parsed plans and
leaves the chosen action unchanged, so it is not modelled. -/
def plannerExec (attempts : Nat → Option PlannedOp) : PlannedOp :=
  match attempts 0 with
  | some p => p
  | none =>
    match attempts 1 with
    | some p => p
    | none =>
      match attempts 2 with
      | some p => p
      | none => defaultPlan

/-! ## The control loop -/

/-- Result of a whole run of the flow, as far as the cyclic core is
concerned. -/
inductive RunResult
  | finished (iteration : Nat) (final_message : String)
      (history : List HistoryRecord)
  | offPath (route : ExecRoute)
deriving DecidableEq, Repr

/-- One perceive→plan→execute→observe cycle: plan (with this cycle's oracle
attempts), execute the planned operation against the driver, run the
executor's `post_async`, and, on the "success" route, run the observer
(incrementing `iteration` as its `prep_async` does, consulting the oracle
only when the history is non-empty). `Sum.inl` ends the cycle with a final
result (observe routed "finish") or leaves the modelled success path
(`offPath`: the "error"/"retry" routes loop back to plan/execute without
touching `iteration`); `Sum.inr` continues with the next cycle's state. -/
def agentCycle (driver : String → List (Option PValue) → DriverBehavior)
    (attempts : Nat → Option PlannedOp) (oracleResp : String) (s : SharedState) :
    RunResult ⊕ SharedState :=
  let plan := plannerExec attempts
  let res := (execOperation driver plan).1
  let step := executePost { s with planned_operation := some plan } plan res
  match step.1 with
  | .success =>
    let it := step.2.iteration + 1
    let s₂ := { step.2 with iteration := it }
    match observeRoute
        (if s₂.operation_history.isEmpty then none else some oracleResp) it with
    | .finish msg => Sum.inl (.finished it msg s₂.operation_history)
    | .cont => Sum.inr s₂
  | r => Sum.inl (.offPath r)

theorem executePost_iteration (s : SharedState) (prep : PlannedOp) (res : OperationResult) :
    ((executePost s prep res).2).iteration = s.iteration := by
  cases res <;> simp only [executePost] <;> split <;> rfl

theorem observeRoute_cont (c : Option String) (it : Nat)
    (h : observeRoute c it = ObserveRoute.cont) : it < 30 := by
  by_contra hlt
  have h30 : 30 ≤ it := Nat.le_of_not_lt hlt
  cases c with
  | none => simp [observeRoute, h30] at h
  | some s =>
    simp only [observeRoute, h30, if_true] at h
    split at h <;> simp_all

theorem agentCycle_inr_iteration (driver : String → List (Option PValue) → DriverBehavior)
    (attempts : Nat → Option PlannedOp) (resp : String) (s s' : SharedState)
    (h : agentCycle driver attempts resp s = Sum.inr s') :
    s'.iteration = s.iteration + 1 ∧ s'.iteration < 30 := by
  simp only [agentCycle] at h
  split at h
  · split at h
    · cases h
    · rename_i hobs
      have hcont := observeRoute_cont _ _ hobs
      injection h with h'
      subst h'
      exact ⟨by simp [executePost_iteration], by simpa [executePost_iteration] using hcont⟩
  · cases h

/-- The cyclic core of `browser_agent.run_async`: repeat `agentCycle` until
it produces a result. `planAttempts cyc att` is the parse of the oracle's
`att`-th planning response in the cycle that starts at iteration counter
`cyc`; `oracle it` is the completion oracle's response at iteration `it`.
Total because the observer's "continue" route implies `iteration < 30`. -/
def controlRun (driver : String → List (Option PValue) → DriverBehavior)
    (planAttempts : Nat → Nat → Option PlannedOp) (oracle : Nat → String)
    (s : SharedState) : RunResult :=
  match h : agentCycle driver (planAttempts s.iteration) (oracle (s.iteration + 1)) s with
  | Sum.inl r => r
  | Sum.inr s' => controlRun driver planAttempts oracle s'
termination_by 30 - s.iteration
decreasing_by
  have := agentCycle_inr_iteration _ _ _ _ _ h
  omega

/-- The initial shared state of `main`: empty history, iteration counter
absent (read as 0), nothing planned or failed yet. -/
def initState : SharedState :=
  ⟨none, none, 0, none, [], 0, none⟩

/-! ## Guarded vs unguarded browser methods (`BrowserAutomation`) -/

/-- The methods of `BrowserAutomation` carrying a `@FunctionCallTracker()`
decorator, in source order. `scroll_down`, `scroll_up`, `send_keys`,
`switch_tab` and `list_tabs` are undecorated. -/
def guardedMethods : List String :=
  ["go_to_url", "open_tab", "close_tab", "go_back", "click_element",
   "input_text", "click_to_upload"]

/-- One invocation of a `BrowserAutomation` method: it passes through the
repetition guard exactly when the method is decorated; an undecorated method
executes directly. -/
def invokeMethod (t : FunctionCallTracker) (f : FunctionCall → String)
    (name : String) (c : FunctionCall) : CallOutcome × FunctionCallTracker :=
  if name ∈ guardedMethods then
    let r := trackerCall t f c
    (r.1, r.2.1)
  else (.ok (f c), t)

/-- A sequence of invocations of one method. -/
def invokeRun (f : FunctionCall → String) (name : String) :
    FunctionCallTracker → List FunctionCall → List CallOutcome × FunctionCallTracker
  | t, [] => ([], t)
  | t, c :: cs =>
    let r := invokeMethod t f name c
    let rest := invokeRun f name r.2 cs
    (r.1 :: rest.1, rest.2)

/-- An identical `click_element` call at timestamp `i` seconds. -/
def clickCall (i : Nat) : FunctionCall :=
  ⟨"click_element", [PValue.str "//a"], [], (i : ℤ)⟩

/-! ## Lemmas about the guard's buffer -/

theorem dequeAppend_length (maxlen : Nat) (l : List FunctionCall) (c : FunctionCall) :
    (dequeAppend maxlen l c).length = min maxlen (l.length + 1) := by
  simp only [dequeAppend]
  split <;> simp_all <;> omega

/-- C3 (amended): the buffer after a guarded invocation is the deque-append
of the call for a normal or warning outcome, and is untouched when the
invocation is rejected with `RepeatedCallError`; in particular the buffer
never outgrows its capacity. -/
theorem C3_history_update (t : FunctionCallTracker) (f : FunctionCall → String)
    (c : FunctionCall) :
    ((trackerCall t f c).2.1.call_history =
        if isRaised (trackerCall t f c).1 then t.call_history
        else dequeAppend t.max_history t.call_history c)
    ∧ (t.call_history.length ≤ t.max_history →
        (trackerCall t f c).2.1.call_history.length ≤ t.max_history) := by
  simp only [trackerCall]
  split
  · exact ⟨by simp [isRaised], fun h => h⟩
  · split
    · refine ⟨by simp [isRaised], fun h => ?_⟩
      simp [dequeAppend_length]
    · refine ⟨by simp [isRaised], fun h => ?_⟩
      simp [dequeAppend_length]

/-- C3 counterexample: with the default configuration and four identical
calls inside the window, the fourth call is rejected and is *not* recorded:
the buffer still holds 3 calls (not 4), and a fifth identical call counts 3
duplicates (not 4) — the claim's "recorded before the failure is raised" is
false of the code. -/
theorem C3_rejected_call_not_recorded :
    ((runTracker (fun _ => "real_result") defaultTracker
        [testCall 0, testCall 1, testCall 2, testCall 3]).2.call_history.length = 3)
    ∧ ¬((runTracker (fun _ => "real_result") defaultTracker
        [testCall 0, testCall 1, testCall 2, testCall 3]).2.call_history.length = 4)
    ∧ count_recent_duplicates
        (runTracker (fun _ => "real_result") defaultTracker
          [testCall 0, testCall 1, testCall 2, testCall 3]).2 (testCall 4) = 3
    ∧ ¬(count_recent_duplicates
        (runTracker (fun _ => "real_result") defaultTracker
          [testCall 0, testCall 1, testCall 2, testCall 3]).2 (testCall 4) = 4) := by
  decide

/-! ## C4: history exposure to the prompts -/

/-- C4 counterexample: with 6 records in the history, the completion
observer's judgement prompt serializes all 6 (not at most 5); the planner's
`safe_data` serialization does cap at 5. -/
theorem C4_observer_history_uncapped :
    (safeHistoryObserver
        (List.replicate 6 ⟨defaultPlan, OperationResult.success none⟩)).length = 6
    ∧ ¬((safeHistoryObserver
        (List.replicate 6 ⟨defaultPlan, OperationResult.success none⟩)).length ≤ 5)
    ∧ (safeHistoryPlanner
        (List.replicate 6 ⟨defaultPlan, OperationResult.success none⟩)).length = 5 := by
  decide

/-- C4 (amended): the history suffix serialized into the Planner's prompt has
at most the 5 most recent entries (it is a suffix of the serialized full
history), while the CompletionObserver's judgement prompt serializes the
entire history, one entry per record. -/
theorem C4_history_exposure (h : List HistoryRecord) :
    (safeHistoryPlanner h).length ≤ 5
    ∧ safeHistoryPlanner h <:+ h.map toSafeRecord
    ∧ (safeHistoryObserver h).length = h.length := by
  refine ⟨?_, ?_, by simp [safeHistoryObserver]⟩
  · simp only [safeHistoryPlanner]
    split <;> simp_all <;> omega
  · simp only [safeHistoryPlanner]
    split
    · exact List.drop_suffix _ _
    · exact List.suffix_refl _

/-! ## C5: when history records are appended -/

/-- C5 (amended): `post_async` routes to "success" exactly on a non-error
result; the history record is appended exactly then (errors — whether routed
to "error" or "retry" — leave the history untouched); consequently over any
run of execute outcomes the full history grows by exactly the number of
successful outcomes. -/
theorem C5_history_append_policy :
    (∀ (s : SharedState) (op : PlannedOp) (res : OperationResult),
        ((executePost s op res).1 = ExecRoute.success ↔ resIsError res = false)
        ∧ (executePost s op res).2.operation_history =
            (if resIsError res then s.operation_history
             else s.operation_history ++ [⟨normalizeRecordedOp op, res⟩]))
    ∧ (∀ (s : SharedState) (steps : List (PlannedOp × OperationResult)),
        (execPostRun s steps).operation_history.length =
          s.operation_history.length
            + (steps.filter (fun pr => resIsError pr.2 = false)).length) := by
  have hstep : ∀ (s : SharedState) (op : PlannedOp) (res : OperationResult),
      ((executePost s op res).1 = ExecRoute.success ↔ resIsError res = false)
      ∧ (executePost s op res).2.operation_history =
          (if resIsError res then s.operation_history
           else s.operation_history ++ [⟨normalizeRecordedOp op, res⟩]) := by
    intro s op res
    cases res with
    | success v => simp [executePost, resIsError]
    | failure et m =>
      simp only [executePost, resIsError]
      constructor
      · split <;> simp
      · split <;> simp
  refine ⟨hstep, ?_⟩
  intro s steps
  induction steps generalizing s with
  | nil => simp [execPostRun]
  | cons pr rest ih =>
    have hlen : ((executePost s pr.1 pr.2).2).operation_history.length =
        s.operation_history.length + (if resIsError pr.2 then 0 else 1) := by
      rw [(hstep s pr.1 pr.2).2]
      split <;> simp
    calc (execPostRun s (pr :: rest)).operation_history.length
        = (execPostRun (executePost s pr.1 pr.2).2 rest).operation_history.length := rfl
      _ = ((executePost s pr.1 pr.2).2).operation_history.length
            + (rest.filter (fun q => resIsError q.2 = false)).length := ih _
      _ = _ := by
          rw [hlen]
          rcases hb : resIsError pr.2 <;> simp [List.filter_cons, hb] <;> omega

/-- An operation used for concrete counterexamples and witnesses. -/
def opEx : PlannedOp := ⟨"click_element", .dict [("xpath", PValue.str "//a")]⟩

/-- C5 counterexample: a structured non-transient error is a terminal outcome
routed to "error" (back to PLAN), yet no history record is appended — the
history stays empty rather than growing to length 1 as the claim demands. -/
theorem C5_error_outcome_not_recorded :
    (executePost initState opEx (.failure "ValueError" "boom")).1 = ExecRoute.error
    ∧ (executePost initState opEx (.failure "ValueError" "boom")).2.operation_history = []
    ∧ ¬((executePost initState opEx
          (.failure "ValueError" "boom")).2.operation_history.length =
        initState.operation_history.length + 1) := by
  decide

/-! ## C6: transient-error retry policy -/

/-- Iterate `executePost` on `n` consecutive identical failures of the same
operation, collecting the returned routes. -/
def consecFailRoutes (op : PlannedOp) (et m : String) :
    SharedState → Nat → List ExecRoute × SharedState
  | s, 0 => ([], s)
  | s, n + 1 =>
    let r := executePost s op (.failure et m)
    let rest := consecFailRoutes op et m r.2 n
    (r.1 :: rest.1, rest.2)

/-- C6: a structured error of the transient class increments `retry_count`,
records `last_failed_operation` and routes to "retry" while
`retry_count <= 3` (after the increment), re-invoking EXECUTE — the flow's
"retry" edge loops back to the execute node, "error" goes to the plan node —
and leaves `planned_operation` (the action to re-execute) untouched; from a
fresh state, four consecutive transient failures of the same operation give
routes retry, retry, retry and then error. -/
theorem C6_transient_retry (s : SharedState) (op : PlannedOp) (et m : String)
    (htrans : et = "ConnectionError" ∨ et = "TimeoutError" ∨ et = "NetworkError") :
    (s.retry_count < 3 →
        executePost s op (.failure et m) =
          (ExecRoute.retry,
            { s with operation_result := some (.failure et m),
                     last_failed_operation := some op,
                     retry_count := s.retry_count + 1 }))
    ∧ (3 ≤ s.retry_count → (executePost s op (.failure et m)).1 = ExecRoute.error)
    ∧ routeTarget FlowNode.executeNode "retry" = some FlowNode.executeNode
    ∧ routeTarget FlowNode.executeNode "error" = some FlowNode.planNode
    ∧ (s.retry_count = 0 →
        (consecFailRoutes op et m s 4).1 =
            [ExecRoute.retry, ExecRoute.retry, ExecRoute.retry, ExecRoute.error]
        ∧ (consecFailRoutes op et m s 4).2.planned_operation = s.planned_operation
        ∧ (consecFailRoutes op et m s 4).2.retry_count = 4
        ∧ (consecFailRoutes op et m s 4).2.last_failed_operation = some op) := by
  refine ⟨?_, ?_, rfl, rfl, ?_⟩
  · intro hlt
    simp only [executePost]
    rw [if_pos ⟨htrans, by omega⟩]
  · intro hge
    simp only [executePost]
    rw [if_neg (by omega)]
  · intro h0
    simp [consecFailRoutes, executePost, htrans, h0, if_pos, if_neg]

/-- C6 witness: from the initial state, a `TimeoutError` outcome routes to
"retry" with the retry state updated. -/
theorem C6_transient_retry_witness :
    executePost initState opEx (.failure "TimeoutError" "超时") =
      (ExecRoute.retry,
        { initState with
            operation_result := some (.failure "TimeoutError" "超时"),
            last_failed_operation := some opEx,
            retry_count := initState.retry_count + 1 }) := by
  have h := C6_transient_retry initState opEx "TimeoutError" "超时" (Or.inr (Or.inl rfl))
  exact h.1 (by decide)

/-! ## C7: missing required parameters -/

/-- C7: for any action present in the dispatch table whose params dict lacks
one of the action's required parameters, the executor returns a structured
`parameter_validation` failure and performs no driver invocation at all. -/
theorem C7_missing_param_validation (action : String) (cfg : OpConfig)
    (params : List (String × PValue))
    (driver : String → List (Option PValue) → DriverBehavior)
    (hcfg : operationMap action = some cfg)
    (hmiss : ∃ p ∈ cfg.required_params, lookupParam params p = none) :
    ∃ msg, execOperation driver ⟨action, .dict params⟩ =
      (OperationResult.failure "parameter_validation" msg, []) := by
  obtain ⟨p, hp, hnone⟩ := hmiss
  have hne : cfg.required_params.find? (fun q => (lookupParam params q).isNone) ≠ none := by
    intro hfind
    rw [List.find?_eq_none] at hfind
    exact hfind p hp (by simp [hnone])
  obtain ⟨q, hq⟩ := Option.ne_none_iff_exists'.mp hne
  refine ⟨"参数验证失败: " ++ action ++ "操作必须提供" ++ q ++ "参数", ?_⟩
  simp only [execOperation, hcfg, hq]

/-- A driver that accepts anything, for concrete instantiations. -/
def exDriver : String → List (Option PValue) → DriverBehavior :=
  fun _ _ => .ok none

/-- C7 witness: `input_text` with an xpath but no `text` parameter fails with
`parameter_validation` and the driver is never invoked. -/
theorem C7_missing_param_validation_witness :
    ∃ msg, execOperation exDriver ⟨"input_text", .dict [("xpath", PValue.str "//input")]⟩ =
      (OperationResult.failure "parameter_validation" msg, []) :=
  C7_missing_param_validation "input_text" inputTextConfig
    [("xpath", PValue.str "//input")] exDriver rfl ⟨"text", by decide, by decide⟩

/-! ## C9: the completion verdict is a substring test -/

theorem affirmative_ne_empty {s : String} (h : affirmative s = true) : s ≠ "" := by
  intro he
  subst he
  exact absurd h (by decide)

/-- C9: for any oracle response (below the iteration cap, so that the cap
path cannot fire), the observer finishes with the task-complete message
exactly when the lowercased response contains "是" or "完成" as a substring;
in particular the negated answer "未完成" contains "完成" and so ends the run
as complete, while "否" does not. -/
theorem C9_completion_substring_test :
    (∀ (s : String) (it : Nat), it < 30 →
        (observeRoute (some s) it = ObserveRoute.finish ("任务已完成：" ++ s)
          ↔ affirmative s = true))
    ∧ (∀ s : String,
        affirmative s =
          (strContainsSub (pyLower s) "是" || strContainsSub (pyLower s) "完成"))
    ∧ affirmative "未完成" = true
    ∧ observeRoute (some "未完成") 1 = ObserveRoute.finish "任务已完成：未完成"
    ∧ affirmative "否" = false
    ∧ observeRoute (some "否") 1 = ObserveRoute.cont := by
  refine ⟨?_, fun s => rfl, by decide, by decide, by decide, by decide⟩
  intro s it hit
  constructor
  · intro hr
    by_contra haff
    have haff' : affirmative s = false := by
      cases hb : affirmative s
      · rfl
      · exact absurd hb haff
    have h1 : ¬(s ≠ "" ∧ affirmative s = true) := by
      rintro ⟨-, h2⟩
      rw [haff'] at h2
      cases h2
    have h2 : ¬(30 ≤ it) := by omega
    simp [observeRoute, h1, h2] at hr
  · intro haff
    have hne := affirmative_ne_empty haff
    simp [observeRoute, hne, haff]

/-! ## C10: scrolls are unguarded, the interaction methods are guarded -/

/-- Evaluating the executor on the planner's fallback plan: it dispatches
exactly one driver invocation, of the `scroll_down` method with the default
300 pixels, whatever the driver then does. -/
theorem execOperation_defaultPlan_calls
    (driver : String → List (Option PValue) → DriverBehavior) :
    (execOperation driver defaultPlan).2 = [("scroll_down", [some (PValue.int 300)])] := by
  have hmap : operationMap "scroll_down" = some scrollDownConfig := rfl
  have hl : (lookupParam [("pixel", PValue.int 300)] "pixel").getD (PValue.int 300) =
      PValue.int 300 := by decide
  simp only [execOperation, defaultPlan, hmap, scrollDownConfig, List.find?, hl]
  cases driver "scroll_down" [some (PValue.int 300)] <;> rfl

theorem invokeRun_unguarded (f : FunctionCall → String) (name : String)
    (hname : name ∉ guardedMethods) (t : FunctionCallTracker)
    (cs : List FunctionCall) :
    invokeRun f name t cs = (cs.map (fun c => CallOutcome.ok (f c)), t) := by
  induction cs generalizing t with
  | nil => rfl
  | cons c rest ih =>
    simp [invokeRun, invokeMethod, hname, ih]

/-- C10: `scroll_down` and `scroll_up` are not wrapped by the repetition
guard — any number of identical consecutive scroll invocations returns the
real result and never raises `RepeatedCallError`, and the planner's fallback
`scroll_down` plan also dispatches to the unguarded `scroll_down` method —
whereas the seven decorated methods are guarded: four identical
`click_element` invocations inside the window end in a raised
`RepeatedCallError`. -/
theorem C10_scroll_unguarded :
    (∀ (f : FunctionCall → String) (t : FunctionCallTracker) (cs : List FunctionCall),
        (invokeRun f "scroll_down" t cs).1 = cs.map (fun c => CallOutcome.ok (f c)))
    ∧ (∀ (f : FunctionCall → String) (t : FunctionCallTracker) (cs : List FunctionCall),
        (invokeRun f "scroll_up" t cs).1 = cs.map (fun c => CallOutcome.ok (f c)))
    ∧ "scroll_down" ∉ guardedMethods
    ∧ "scroll_up" ∉ guardedMethods
    ∧ "click_element" ∈ guardedMethods
    ∧ "input_text" ∈ guardedMethods
    ∧ "click_to_upload" ∈ guardedMethods
    ∧ "go_to_url" ∈ guardedMethods
    ∧ "open_tab" ∈ guardedMethods
    ∧ "close_tab" ∈ guardedMethods
    ∧ "go_back" ∈ guardedMethods
    ∧ (∀ driver : String → List (Option PValue) → DriverBehavior,
        (execOperation driver defaultPlan).2.map Prod.fst = ["scroll_down"])
    ∧ (invokeRun (fun _ => "clicked") "click_element" defaultTracker
          [clickCall 0, clickCall 1, clickCall 2, clickCall 3]).1.map outcomeKind =
        [OutcomeKind.normal, OutcomeKind.normal, OutcomeKind.warned, OutcomeKind.raised] := by
  refine ⟨fun f t cs => ?_, fun f t cs => ?_, by decide, by decide, by decide, by decide,
    by decide, by decide, by decide, by decide, by decide, fun driver => ?_, by decide⟩
  · rw [invokeRun_unguarded f "scroll_down" (by decide) t cs]
  · rw [invokeRun_unguarded f "scroll_up" (by decide) t cs]
  · rw [execOperation_defaultPlan_calls driver]
    rfl

/-! ## C8: general counting behaviour of the guard -/

theorem countDupGo_all_matching (T : ℤ) (cur : FunctionCall) (l : List FunctionCall)
    (h : ∀ x ∈ l, matchesCall x cur = true
        ∧ (cur.timestamp - x.timestamp) * 1000 ≤ T) :
    countDupGo T cur l = l.length := by
  induction l with
  | nil => rfl
  | cons a rest ih =>
    have ha := h a (List.mem_cons_self a rest)
    simp only [countDupGo]
    rw [if_neg (not_lt.mpr ha.2), if_pos ha.1,
      ih (fun x hx => h x (List.mem_cons_of_mem a hx))]
    simp

theorem runTracker_cons (f : FunctionCall → String) (t : FunctionCallTracker)
    (c : FunctionCall) (cs : List FunctionCall) :
    runTracker f t (c :: cs) =
      (((trackerCall t f c).1, (trackerCall t f c).2.2)
          :: (runTracker f (trackerCall t f c).2.1 cs).1,
        (runTracker f (trackerCall t f c).2.1 cs).2) := rfl

/-- The per-call behaviour the code actually exhibits on an identical-call
sequence: calls 1..M-1 pass normally, call M executes but returns the
warning, calls M+1, M+2, ... raise without executing. -/
def expectedGuardStep (f : FunctionCall → String) (T : ℤ) (M : Nat)
    (cs : Nat → FunctionCall) (i : Nat) : CallOutcome × Nat :=
  if i + 1 < M then (.ok (f (cs i)), 1)
  else if i + 1 = M then (.warn (warningMsg T (cs i) (M - 1)), 1)
  else (.err (warningMsg T (cs i) M), 0)

theorem runTracker_uniform_from (f : FunctionCall → String) (N : Nat) (T : ℤ) (M : Nat)
    (cs : Nat → FunctionCall) (n : Nat) (hM : 2 ≤ M) (hMN : M ≤ N)
    (hmatch : ∀ i j : Nat, matchesCall (cs i) (cs j) = true)
    (hwin : ∀ i j : Nat, i ≤ j → j < n →
        ((cs j).timestamp - (cs i).timestamp) * 1000 ≤ T) :
    ∀ d k : Nat, k + d = n →
      runTracker f ⟨(List.range (min k M)).map cs, N, T, M⟩ ((List.range' k d).map cs)
        = ((List.range' k d).map (expectedGuardStep f T M cs),
           ⟨(List.range (min n M)).map cs, N, T, M⟩) := by
  intro d
  induction d with
  | zero =>
    intro k hk
    have : k = n := by omega
    subst this
    rfl
  | succ d ih =>
    intro k hk
    have hkn : k < n := by omega
    have hcount : count_recent_duplicates
        ⟨(List.range (min k M)).map cs, N, T, M⟩ (cs k) = min k M := by
      unfold count_recent_duplicates
      rw [countDupGo_all_matching]
      · simp
      · intro x hx
        rw [List.mem_reverse] at hx
        obtain ⟨i, hi, rfl⟩ := List.mem_map.mp hx
        rw [List.mem_range] at hi
        exact ⟨hmatch i k, hwin i k (by omega) hkn⟩
    have hrange : List.range' k (d + 1) = k :: List.range' (k + 1) d := List.range'_succ k d 1
    rw [hrange, List.map_cons, List.map_cons, runTracker_cons]
    rcases Nat.lt_or_ge k M with hkM | hkM
    · have hmin : min k M = k := Nat.min_eq_left (Nat.le_of_lt hkM)
      rw [hmin] at hcount
      have hde : dequeAppend N ((List.range k).map cs) (cs k)
          = (List.range (k + 1)).map cs := by
        simp only [dequeAppend]
        rw [if_neg (by simp; omega)]
        rw [List.range_succ, List.map_append, List.map_singleton]
      rcases Nat.lt_or_ge (k + 1) M with hk1 | hk1
      · have hstep : trackerCall ⟨(List.range (min k M)).map cs, N, T, M⟩ f (cs k)
            = (.ok (f (cs k)), ⟨(List.range (min (k + 1) M)).map cs, N, T, M⟩, 1) := by
          simp only [trackerCall, hcount, hmin]
          rw [if_neg (by omega), if_neg (by omega)]
          rw [Nat.min_eq_left (by omega), hde]
        rw [hstep]
        dsimp only
        rw [ih (k + 1) (by omega)]
        have hexp : expectedGuardStep f T M cs k = (.ok (f (cs k)), 1) := by
          simp only [expectedGuardStep]
          rw [if_pos hk1]
        rw [hexp]
      · have hkeq : k + 1 = M := by omega
        have hstep : trackerCall ⟨(List.range (min k M)).map cs, N, T, M⟩ f (cs k)
            = (.warn (warningMsg T (cs k) k),
                ⟨(List.range (min (k + 1) M)).map cs, N, T, M⟩, 1) := by
          simp only [trackerCall, hcount, hmin]
          rw [if_neg (by omega), if_pos (by omega)]
          rw [Nat.min_eq_left (by omega), hde]
        rw [hstep]
        dsimp only
        rw [ih (k + 1) (by omega)]
        have hexp : expectedGuardStep f T M cs k = (.warn (warningMsg T (cs k) k), 1) := by
          simp only [expectedGuardStep]
          rw [if_neg (by omega), if_pos hkeq]
          have : M - 1 = k := by omega
          rw [this]
        rw [hexp]
    · have hmin : min k M = M := Nat.min_eq_right hkM
      rw [hmin] at hcount
      have hstep : trackerCall ⟨(List.range (min k M)).map cs, N, T, M⟩ f (cs k)
          = (.err (warningMsg T (cs k) M),
              ⟨(List.range (min (k + 1) M)).map cs, N, T, M⟩, 0) := by
        simp only [trackerCall, hcount, hmin]
        rw [if_pos (by omega)]
        rw [Nat.min_eq_right (by omega)]
      rw [hstep]
      dsimp only
      rw [ih (k + 1) (by omega)]
      have hexp : expectedGuardStep f T M cs k = (.err (warningMsg T (cs k) M), 0) := by
        simp only [expectedGuardStep]
        rw [if_neg (by omega), if_neg (by omega)]
      rw [hexp]

/-- C8 (amended): for every sequence of identical calls within the time
window, a guard with `max_repeats = M ≥ 2` (and capacity at least `M`) gives
exactly `M-1` normal passes returning the real result, then one
warning-returning pass on call `M` (the underlying operation still executing
that once), and raises `RepeatedCall` on call `M+1` and every subsequent
identical call. -/
theorem C8_guard_counting (f : FunctionCall → String) (N : Nat) (T : ℤ) (M : Nat)
    (cs : Nat → FunctionCall) (n : Nat) (hM : 2 ≤ M) (hMN : M ≤ N)
    (hmatch : ∀ i j : Nat, matchesCall (cs i) (cs j) = true)
    (hwin : ∀ i j : Nat, i ≤ j → j < n →
        ((cs j).timestamp - (cs i).timestamp) * 1000 ≤ T) :
    ((runTracker f ⟨[], N, T, M⟩ ((List.range n).map cs)).1).map
        (fun p => (outcomeKind p.1, p.2))
      = (List.range n).map (fun i =>
          if i + 1 < M then (OutcomeKind.normal, 1)
          else if i + 1 = M then (OutcomeKind.warned, 1)
          else (OutcomeKind.raised, 0)) := by
  have h := runTracker_uniform_from f N T M cs n hM hMN hmatch hwin n 0 (by omega)
  simp only [Nat.zero_min, List.range_zero, List.map_nil, List.range'] at h
  rw [List.range_eq_range', h]
  rw [List.map_map]
  refine List.map_congr_left ?_
  intro i _
  simp only [Function.comp, expectedGuardStep]
  split_ifs <;> rfl

/-- C8 counterexample: with `M = 3` and three identical in-window calls, the
code gives two normal passes and a warning on the third call — not the
claimed single normal pass, warning on the second, and failure on the third
(`M`-th) call. -/
theorem C8_offbyone :
    ((runTracker (fun _ => "real_result") defaultTracker
        [testCall 0, testCall 1, testCall 2]).1).map (fun p => (outcomeKind p.1, p.2)) =
      [(OutcomeKind.normal, 1), (OutcomeKind.normal, 1), (OutcomeKind.warned, 1)]
    ∧ ¬(((runTracker (fun _ => "real_result") defaultTracker
        [testCall 0, testCall 1, testCall 2]).1).map (fun p => (outcomeKind p.1, p.2)) =
      [(OutcomeKind.normal, 1), (OutcomeKind.warned, 1), (OutcomeKind.raised, 0)]) := by
  decide

/-- C8 witness: the default configuration on five identical in-window calls:
two normal passes, one warning pass, then two raised `RepeatedCall`s. -/
theorem C8_guard_counting_witness :
    ((runTracker (fun _ => "r") ⟨[], 15, 30000, 3⟩ ((List.range 5).map testCall)).1).map
        (fun p => (outcomeKind p.1, p.2)) =
      [(OutcomeKind.normal, 1), (OutcomeKind.normal, 1), (OutcomeKind.warned, 1),
       (OutcomeKind.raised, 0), (OutcomeKind.raised, 0)] := by
  have h := C8_guard_counting (fun _ => "r") 15 30000 3 testCall 5 (by omega) (by omega)
      (fun i j => by simp [matchesCall, testCall])
      (fun i j hij hj => by simp only [testCall]; omega)
  rw [h]
  decide

/-! ## C1: the loop reaches DONE within 30 iterations -/

/-- The history record a successful fallback scroll leaves behind
(`scroll_down` returns `None`). -/
def scrollRecord : HistoryRecord :=
  ⟨defaultPlan, .success none⟩

theorem execOperation_defaultPlan_result
    (driver : String → List (Option PValue) → DriverBehavior)
    (h : driver "scroll_down" [some (PValue.int 300)] = DriverBehavior.ok none) :
    (execOperation driver defaultPlan).1 = OperationResult.success none := by
  have hmap : operationMap "scroll_down" = some scrollDownConfig := rfl
  have hl : (lookupParam [("pixel", PValue.int 300)] "pixel").getD (PValue.int 300) =
      PValue.int 300 := by decide
  simp only [execOperation, defaultPlan, hmap, scrollDownConfig, List.find?, hl, h]

/-- One cycle in the scenario of C1: the planner fell back to the default
scroll, the scroll succeeded, and the completion oracle did not affirm. The
cycle either finishes with the max-iterations message (when the incremented
iteration counter reaches 30) or hands the loop the next state. -/
theorem agentCycle_scroll_step (driver : String → List (Option PValue) → DriverBehavior)
    (attempts : Nat → Option PlannedOp) (resp : String) (s : SharedState)
    (hplanner : plannerExec attempts = defaultPlan)
    (hdriver : driver "scroll_down" [some (PValue.int 300)] = DriverBehavior.ok none)
    (hresp : affirmative resp = false) :
    agentCycle driver attempts resp s =
      (if 30 ≤ s.iteration + 1 then
        Sum.inl (RunResult.finished (s.iteration + 1) maxIterMessage
          (s.operation_history ++ [scrollRecord]))
      else Sum.inr { s with
          planned_operation := some defaultPlan,
          operation_result := some (OperationResult.success none),
          retry_count := 0,
          last_failed_operation := none,
          operation_history := s.operation_history ++ [scrollRecord],
          iteration := s.iteration + 1 }) := by
  have hcond : ¬(resp ≠ "" ∧ affirmative resp = true) := by
    rintro ⟨-, h2⟩
    rw [hresp] at h2
    cases h2
  have hexec : (execOperation driver defaultPlan).1 = OperationResult.success none :=
    execOperation_defaultPlan_result driver hdriver
  have hnorm : normalizeRecordedOp defaultPlan = defaultPlan := rfl
  have hie : ∀ (l : List HistoryRecord) (x : HistoryRecord), (l ++ [x]).isEmpty = false := by
    intro l x
    cases l <;> rfl
  simp only [agentCycle, hplanner, hexec, executePost, hnorm, scrollRecord, hie, observeRoute,
    Bool.false_eq_true, if_false]
  rw [if_neg hcond]
  by_cases hcap : 30 ≤ s.iteration + 1
  · rw [if_pos hcap, if_pos hcap]
  · rw [if_neg hcap, if_neg hcap]

theorem controlRun_maxiter_aux (driver : String → List (Option PValue) → DriverBehavior)
    (planAtt : Nat → Nat → Option PlannedOp) (oracle : Nat → String)
    (hplan : ∀ cyc att, planAtt cyc att = none)
    (hdriver : driver "scroll_down" [some (PValue.int 300)] = DriverBehavior.ok none)
    (horacle : ∀ i, affirmative (oracle i) = false) :
    ∀ d : Nat, ∀ s : SharedState, s.iteration + d + 1 = 30 →
      s.operation_history = List.replicate s.iteration scrollRecord →
      controlRun driver planAtt oracle s =
        RunResult.finished 30 maxIterMessage (List.replicate 30 scrollRecord) := by
  intro d
  induction d with
  | zero =>
    intro s hs hh
    unfold controlRun
    split
    · rename_i r heq
      rw [agentCycle_scroll_step driver (planAtt s.iteration) (oracle (s.iteration + 1)) s
        (by simp [plannerExec, hplan]) hdriver (horacle _)] at heq
      rw [if_pos (by omega)] at heq
      injection heq with heq'
      rw [← heq', hh, ← List.replicate_succ']
      have h1 : s.iteration + 1 = 30 := by omega
      rw [h1]
    · rename_i s' heq
      rw [agentCycle_scroll_step driver (planAtt s.iteration) (oracle (s.iteration + 1)) s
        (by simp [plannerExec, hplan]) hdriver (horacle _)] at heq
      rw [if_pos (by omega)] at heq
      cases heq
  | succ d ih =>
    intro s hs hh
    unfold controlRun
    split
    · rename_i r heq
      rw [agentCycle_scroll_step driver (planAtt s.iteration) (oracle (s.iteration + 1)) s
        (by simp [plannerExec, hplan]) hdriver (horacle _)] at heq
      rw [if_neg (by omega)] at heq
      cases heq
    · rename_i s' heq
      rw [agentCycle_scroll_step driver (planAtt s.iteration) (oracle (s.iteration + 1)) s
        (by simp [plannerExec, hplan]) hdriver (horacle _)] at heq
      rw [if_neg (by omega)] at heq
      injection heq with heq'
      rw [← heq']
      refine ih _ (by simp; omega) ?_
      simp only [hh, ← List.replicate_succ']

/-- C1: starting from the initial state (empty history, iteration 0), when
every planning response is unparsable (so the Planner falls back to the
default `scroll_down` each cycle), the scroll succeeds, and the completion
oracle never affirms, the control loop reaches the finish route after
exactly 30 perceive→plan→execute→observe cycles, ending with the explicit
max-iterations final message (and a history of 30 fallback scrolls). -/
theorem C1_terminates_within_30 (driver : String → List (Option PValue) → DriverBehavior)
    (planAtt : Nat → Nat → Option PlannedOp) (oracle : Nat → String)
    (hplan : ∀ cyc att, planAtt cyc att = none)
    (hdriver : driver "scroll_down" [some (PValue.int 300)] = DriverBehavior.ok none)
    (horacle : ∀ i, affirmative (oracle i) = false) :
    controlRun driver planAtt oracle initState =
      RunResult.finished 30 maxIterMessage (List.replicate 30 scrollRecord) :=
  controlRun_maxiter_aux driver planAtt oracle hplan hdriver horacle 29 initState
    (by decide) rfl

/-- C1 witness: a concrete always-unparsable planning oracle, an
always-succeeding scroll driver, and a completion oracle that always answers
"否". -/
theorem C1_terminates_within_30_witness :
    controlRun (fun _ _ => DriverBehavior.ok none) (fun _ _ => none) (fun _ => "否")
        initState =
      RunResult.finished 30 maxIterMessage (List.replicate 30 scrollRecord) := by
  have hno : affirmative "否" = false := by decide
  exact C1_terminates_within_30 (fun _ _ => DriverBehavior.ok none) (fun _ _ => none)
    (fun _ => "否") (fun _ _ => rfl) rfl (fun _ => hno)
